import Mathlib

/-!
Shallow embedding of the Raiden payment-channel state machine
(`src/raiden/transfer/channel.py`) and proofs about the spec's claims.

Modelling conventions:
* Python integers are unbounded, so monetary quantities are `Int` (the code
  checks `UINT256_MAX` bounds explicitly).  Nonces, block numbers, widths are
  `Nat`; addresses and hashes are abstracted to `Nat`.
* Python dicts keyed by secrethash are association lists (`AssocMap`), with
  dict semantics: lookup of the unique binding, in-place overwrite, delete.
* The cryptographic collaborators (`recover`, `keccak256`, message packing),
  which the spec lists as external interfaces, are fields of a `CryptoEnv`
  parameter, universally quantified in the theorems.
* Error message strings of the source are abbreviated to the `ErrorReason`
  enumeration; each constructor corresponds to one failure branch of the
  source.  The message text itself is never load-bearing for a claim.
* Mutation of the channel state is explicit state passing: each handler
  returns the new state next to the events.
-/

namespace Raiden

/-- `UINT256_MAX = 2^256 - 1` from `raiden/constants.py` (spec §3, §6). -/
def UINT256_MAX : Int := 2 ^ 256 - 1

/-- Modelled from the spec: `MAXIMUM_PENDING_TRANSFERS` is imported from
`raiden/constants.py`, which is not among the repository files; the spec
(§6) only requires it to be a fixed per-channel cap on Merkle width.  The
historical value 160 is used; no claim depends on the exact value. -/
def MAXIMUM_PENDING_TRANSFERS : Nat := 160

/-- Modelled from the spec: `DEFAULT_NUMBER_OF_BLOCK_CONFIRMATIONS` is
imported from `raiden/settings.py`, which is not among the repository files;
the spec (§6) only requires it to be a fixed number of blocks.  The
historical value 5 is used; no claim depends on the exact value. -/
def DEFAULT_NUMBER_OF_BLOCK_CONFIRMATIONS : Nat := 5

/-- Modelled from the spec: (§6) root of the empty Merkle tree is the
all-zero sentinel `EMPTY_ROOT = 0x00…00`; the constant lives in
`raiden/constants.py`, not among the repository files. -/
def EMPTY_MERKLE_ROOT : Nat := 0

/-- Association list keyed by secrethash, modelling a Python dict. -/
abbrev AssocMap (α : Type) : Type := List (Nat × α)

/-- Dict lookup: value of the binding for `k`, if any. -/
def AssocMap.find? {α : Type} : AssocMap α → Nat → Option α
  | [], _ => none
  | (k2, v) :: rest, k => if k2 = k then some v else AssocMap.find? rest k

/-- Python `k in d`. -/
def AssocMap.mem {α : Type} (m : AssocMap α) (k : Nat) : Bool :=
  (AssocMap.find? m k).isSome

/-- Python `d[k] = v`: overwrite in place, or append a new binding. -/
def AssocMap.insert {α : Type} : AssocMap α → Nat → α → AssocMap α
  | [], k, v => [(k, v)]
  | (k2, v2) :: rest, k, v =>
      if k2 = k then (k, v) :: rest else (k2, v2) :: AssocMap.insert rest k v

/-- Python `del d[k]`. -/
def AssocMap.erase {α : Type} (m : AssocMap α) (k : Nat) : AssocMap α :=
  m.filter (fun p => p.1 != k)

/-- `HashTimeLockState` (spec §3 Lock).  `lockhash` is the keccak of the
packed fields, computed externally on construction; it is carried as data
because `keccak256` is an external collaborator. -/
structure HashTimeLockState where
  amount : Int
  expiration : Nat
  secrethash : Nat
  lockhash : Nat
deriving DecidableEq

/-- `UnlockPartialProofState`: a lock together with its revealed secret. -/
structure UnlockPartialProofState where
  lock : HashTimeLockState
  secret : Nat
deriving DecidableEq

/-- Balance proof (spec §3).  The unsigned local variant simply leaves the
signature fields unused. -/
structure BalanceProof where
  nonce : Nat
  transferred_amount : Int
  locked_amount : Int
  locksroot : Nat
  chain_id : Nat
  token_network_address : Nat
  channel_identifier : Nat
  message_hash : Nat
  signature : Nat
  sender : Nat
deriving DecidableEq

/-- Modelled from the spec: `MerkleTreeState` lives in
`raiden/transfer/state.py` / `merkle_tree.py`, not among the repository
files.  Per spec §4.A the layers are recomputed from scratch from the leaf
list on each mutation, so the leaf list is the whole state; `layers[LEAVES]`
is the `leaves` field and the other layers are derived by `merkleroot`. -/
structure MerkleTreeState where
  leaves : List Nat
deriving DecidableEq

/-- `make_empty_merkle_tree()`. -/
def make_empty_merkle_tree : MerkleTreeState := ⟨[]⟩

/-- `TransactionExecutionStatus.result` values. -/
inductive TxStatus where
  | success
  | failure
deriving DecidableEq

/-- `TransactionExecutionStatus(started, finished, result)`. -/
structure TransactionExecutionStatus where
  started_block_number : Option Nat
  finished_block_number : Option Nat
  result : Option TxStatus
deriving DecidableEq

/-- `TransactionChannelNewBalance`. -/
structure TransactionChannelNewBalance where
  participant_address : Nat
  contract_balance : Int
  deposit_block_number : Nat
deriving DecidableEq

/-- `TransactionOrder`: deposit-queue entry keyed by block number. -/
structure TransactionOrder where
  block_number : Nat
  transaction : TransactionChannelNewBalance
deriving DecidableEq

/-- `NettingChannelEndState` (spec §3 EndState). -/
structure NettingChannelEndState where
  address : Nat
  contract_balance : Int
  total_withdraw : Int
  balance_proof : Option BalanceProof
  merkletree : MerkleTreeState
  secrethashes_to_lockedlocks : AssocMap HashTimeLockState
  secrethashes_to_unlockedlocks : AssocMap UnlockPartialProofState
  secrethashes_to_onchain_unlockedlocks : AssocMap UnlockPartialProofState
  onchain_locksroot : Nat
deriving DecidableEq

/-- `NettingChannelState` (spec §3).  `token_network_address` doubles as the
source's `token_network_identifier` (the source uses both names for the same
on-chain address).  The deposit queue is the min-heap as its sorted list of
entries (heapq's heap order on `TransactionOrder.block_number`). -/
structure NettingChannelState where
  chain_id : Nat
  token_network_address : Nat
  identifier : Nat
  token_address : Nat
  our_state : NettingChannelEndState
  partner_state : NettingChannelEndState
  reveal_timeout : Nat
  settle_timeout : Nat
  mediation_fee : Int
  close_transaction : Option TransactionExecutionStatus
  settle_transaction : Option TransactionExecutionStatus
  update_transaction : Option TransactionExecutionStatus
  deposit_transaction_queue : List TransactionOrder
deriving DecidableEq

/-- The channel status strings of `raiden/transfer/state.py`. -/
inductive ChannelStatus where
  | opened
  | closing
  | closed
  | settling
  | settled
  | unusable
deriving DecidableEq

/-- `get_status`: status is a pure function of the transaction slots. -/
def get_status (channel_state : NettingChannelState) : ChannelStatus :=
  match channel_state.settle_transaction with
  | some settle_tx =>
      if settle_tx.result = some TxStatus.success then ChannelStatus.settled
      else if settle_tx.finished_block_number = none then ChannelStatus.settling
      else ChannelStatus.unusable
  | none =>
      match channel_state.close_transaction with
      | some close_tx =>
          if close_tx.result = some TxStatus.success then ChannelStatus.closed
          else if close_tx.finished_block_number = none then ChannelStatus.closing
          else ChannelStatus.unusable
      | none => ChannelStatus.opened

/-- The external cryptographic collaborators (spec §6): signature recovery,
`keccak256`-based hashing and the bit-exact packing functions.  They are
consumed as pure functions; the theorems quantify over them. -/
structure CryptoEnv where
  /-- `recover(data, signature)`; `none` models the raised exception. -/
  recover : Nat → Nat → Option Nat
  /-- `hash_balance_data(transferred_amount, locked_amount, locksroot)`. -/
  hash_balance_data : Int → Int → Nat → Nat
  /-- `pack_balance_proof(nonce, balance_hash, additional_hash, chain_id,
  token_network_address, channel_identifier)`. -/
  pack_balance_proof : Nat → Nat → Nat → Nat → Nat → Nat → Nat
  /-- `WithdrawRequest(message_identifier, token_network_identifier,
  channel_identifier, amount).packed()`. -/
  pack_withdraw_request : Nat → Nat → Nat → Int → Nat
  /-- `keccak256(left ‖ right)` for sibling pairs of a Merkle layer. -/
  hash_pair : Nat → Nat → Nat

/-- The failure branches of the validators; each constructor stands for one
error message string of the source. -/
inductive ErrorReason where
  | signatureInvalid
  | signatureMismatch
  | channelClosed
  | channelIdMismatch
  | tokenNetworkMismatch
  | chainIdMismatch
  | overflowUnsafe
  | nonceMismatch
  | lockhashKnown
  | pendingTransfersLimit
  | locksrootMismatch
  | transferredAmountMismatch
  | lockedAmountMismatch
  | amountOverDistributable
  | noCorrespondingLock
  | lockhashUnknown
  | insufficientBalance
deriving DecidableEq

/-- `SuccessOrError = Tuple[bool, Optional[str]]`. -/
abbrev SuccessOrError : Type := Bool × Option ErrorReason

/-- `MerkletreeOrError = Tuple[bool, Optional[str], Optional[MerkleTreeState]]`. -/
abbrev MerkletreeOrError : Type := Bool × Option ErrorReason × Option MerkleTreeState

/-- The outbound events the embedded handlers emit (spec §6). -/
inductive Event where
  | sendProcessed (recipient : Nat) (message_identifier : Nat)
  | eventInvalidReceivedUnlock (secrethash : Nat) (reason : Option ErrorReason)
  | sendWithdraw (recipient : Nat) (token_network_identifier : Nat)
      (channel_identifier : Nat) (message_identifier : Nat) (amount : Int)
  | sendWithdrawRequest (recipient : Nat) (token_network_identifier : Nat)
      (channel_identifier : Nat) (message_identifier : Nat) (amount : Int)
  | contractSendChannelSettle (chain_id : Nat) (token_network_address : Nat)
      (channel_identifier : Nat) (triggered_by_block_hash : Nat)
  | contractSendChannelBatchUnlock (chain_id : Nat) (token_network_address : Nat)
      (channel_identifier : Nat) (sender : Nat) (triggered_by_block_hash : Nat)
deriving DecidableEq

/-- `TransitionResult(new_state, events)`; `new_state = none` models the
source returning `None` for a disposed channel. -/
structure TransitionResult where
  new_state : Option NettingChannelState
  events : List Event
deriving DecidableEq

/-- `get_amount_unclaimed_onchain`: sum of on-chain unlocked lock amounts. -/
def get_amount_unclaimed_onchain (end_state : NettingChannelEndState) : Int :=
  (end_state.secrethashes_to_onchain_unlockedlocks.map (fun p => p.2.lock.amount)).sum

/-- `get_amount_locked`: total of the three lock maps (spec §4.F). -/
def get_amount_locked (end_state : NettingChannelEndState) : Int :=
  let total_pending :=
    (end_state.secrethashes_to_lockedlocks.map (fun p => p.2.amount)).sum
  let total_unclaimed :=
    (end_state.secrethashes_to_unlockedlocks.map (fun p => p.2.lock.amount)).sum
  let total_unclaimed_onchain := get_amount_unclaimed_onchain end_state
  total_pending + total_unclaimed + total_unclaimed_onchain

/-- Modelled from the spec: (§4.F, §9) the source line
`sender.contract_balance sender.total_withdraw - sender_transferred_amount +
receiver_transferred_amount` is missing the operator between the first two
operands (a Python SyntaxError); the spec states the intended formula is
`sender.contract_balance − sender.total_withdraw − sender.transferred_amount
+ receiver.transferred_amount`, which is embedded here. -/
def get_balance (sender receiver : NettingChannelEndState) : Int :=
  let sender_transferred_amount :=
    match sender.balance_proof with
    | some bp => bp.transferred_amount
    | none => 0
  let receiver_transferred_amount :=
    match receiver.balance_proof with
    | some bp => bp.transferred_amount
    | none => 0
  sender.contract_balance - sender.total_withdraw
    - sender_transferred_amount + receiver_transferred_amount

/-- `get_current_balanceproof`: `(locksroot, nonce, transferred_amount,
locked_amount)` of the end-state, with the documented defaults when no
balance proof is present. -/
def get_current_balanceproof (end_state : NettingChannelEndState) :
    Nat × Nat × Int × Int :=
  match end_state.balance_proof with
  | some balance_proof =>
      (balance_proof.locksroot, balance_proof.nonce,
       balance_proof.transferred_amount, get_amount_locked end_state)
  | none => (EMPTY_MERKLE_ROOT, 0, 0, 0)

/-- `get_current_nonce`. -/
def get_current_nonce (end_state : NettingChannelEndState) : Nat :=
  match end_state.balance_proof with
  | some balance_proof => balance_proof.nonce
  | none => 0

/-- `get_next_nonce`: nonce of the current balance proof plus one, or 1 for
a fresh end-state (0 is reserved for null in the netting contract). -/
def get_next_nonce (end_state : NettingChannelEndState) : Nat :=
  match end_state.balance_proof with
  | some balance_proof => balance_proof.nonce + 1
  | none => 1

/-- `get_distributable` (spec §4.F). -/
def get_distributable (sender receiver : NettingChannelEndState) : Int :=
  let current := get_current_balanceproof sender
  let transferred_amount := current.2.2.1
  let locked_amount := current.2.2.2
  let distributable := get_balance sender receiver - get_amount_locked sender
  let overflow_limit := max (UINT256_MAX - transferred_amount - locked_amount) 0
  min overflow_limit distributable

/-- `is_transaction_confirmed`: the mined block plus the confirmation count
must be strictly below the current block. -/
def is_transaction_confirmed
    (transaction_block_number blockchain_block_number : Nat) : Bool :=
  let confirmation_block :=
    transaction_block_number + DEFAULT_NUMBER_OF_BLOCK_CONFIRMATIONS
  confirmation_block < blockchain_block_number

/-- `is_deposit_confirmed`: head of the deposit queue is confirmed. -/
def is_deposit_confirmed
    (channel_state : NettingChannelState) (block_number : Nat) : Bool :=
  match channel_state.deposit_transaction_queue with
  | [] => false
  | order :: _ => is_transaction_confirmed order.block_number block_number

/-- `is_balance_proof_safe_for_onchain_operations`. -/
def is_balance_proof_safe_for_onchain_operations
    (balance_proof : BalanceProof) : Bool :=
  balance_proof.transferred_amount + balance_proof.locked_amount ≤ UINT256_MAX

/-- `is_valid_signature`: recover the signer and compare with the expected
sender address. -/
def is_valid_signature (E : CryptoEnv) (data : Nat) (signature : Nat)
    (sender_address : Nat) : SuccessOrError :=
  match E.recover data signature with
  | none => (false, some ErrorReason.signatureInvalid)
  | some signer_address =>
      if sender_address = signer_address then (true, none)
      else (false, some ErrorReason.signatureMismatch)

/-- `is_valid_balanceproof_signature`: the signed bytes are
`pack_balance_proof(nonce, balance_hash, additional_hash, channel identity)`
with `balance_hash = hash_balance_data(transferred, locked, locksroot)`. -/
def is_valid_balanceproof_signature (E : CryptoEnv)
    (balance_proof : BalanceProof) (sender_address : Nat) : SuccessOrError :=
  let balance_hash := E.hash_balance_data balance_proof.transferred_amount
    balance_proof.locked_amount balance_proof.locksroot
  let data_that_was_signed := E.pack_balance_proof balance_proof.nonce
    balance_hash balance_proof.message_hash balance_proof.chain_id
    balance_proof.token_network_address balance_proof.channel_identifier
  is_valid_signature E data_that_was_signed balance_proof.signature sender_address

/-- `is_balance_proof_usable_onchain`: the ordered elif chain of checks
(status, channel binding, overflow, strict-sequential nonce, signature). -/
def is_balance_proof_usable_onchain (E : CryptoEnv)
    (received_balance_proof : BalanceProof)
    (channel_state : NettingChannelState)
    (sender_state : NettingChannelEndState) : SuccessOrError :=
  let expected_nonce := get_next_nonce sender_state
  let signature_check :=
    is_valid_balanceproof_signature E received_balance_proof sender_state.address
  if get_status channel_state ≠ ChannelStatus.opened then
    (false, some ErrorReason.channelClosed)
  else if received_balance_proof.channel_identifier ≠ channel_state.identifier then
    (false, some ErrorReason.channelIdMismatch)
  else if received_balance_proof.token_network_address
      ≠ channel_state.token_network_address then
    (false, some ErrorReason.tokenNetworkMismatch)
  else if received_balance_proof.chain_id ≠ channel_state.chain_id then
    (false, some ErrorReason.chainIdMismatch)
  else if ¬ is_balance_proof_safe_for_onchain_operations received_balance_proof then
    (false, some ErrorReason.overflowUnsafe)
  else if received_balance_proof.nonce ≠ expected_nonce then
    (false, some ErrorReason.nonceMismatch)
  else if signature_check.1 = false then
    (false, signature_check.2)
  else
    (true, none)

/-- Modelled from the spec: (§6) one hashing pass over a Merkle layer,
siblings paired in layer order with an odd trailing node promoted;
`compute_layers` lives in `raiden/transfer/merkle_tree.py`, not among the
repository files. -/
def hash_layer (E : CryptoEnv) : List Nat → List Nat
  | [] => []
  | [a] => [a]
  | a :: b :: rest => E.hash_pair a b :: hash_layer E rest

/-- Modelled from the spec: root of a leaf list by repeated layer hashing;
the fuel argument (one unit per layer, bounded by the leaf count) makes the
recursion structural. -/
def root_of_leaves (E : CryptoEnv) : Nat → List Nat → Nat
  | _, [] => EMPTY_MERKLE_ROOT
  | _, [a] => a
  | 0, _ :: _ :: _ => EMPTY_MERKLE_ROOT
  | fuel + 1, a :: b :: rest => root_of_leaves E fuel (hash_layer E (a :: b :: rest))

/-- Modelled from the spec: (§4.A, §6) `merkleroot` is the pairwise hash up
to the root, the empty set giving `EMPTY_ROOT`; it lives in
`raiden/transfer/merkle_tree.py`, not among the repository files. -/
def merkleroot (E : CryptoEnv) (merkletree : MerkleTreeState) : Nat :=
  root_of_leaves E merkletree.leaves.length merkletree.leaves

/-- `_merkletree_width`: number of leaves. -/
def _merkletree_width (merkletree : MerkleTreeState) : Nat :=
  merkletree.leaves.length

/-- `compute_merkletree_with`: `None` informs the caller the lockhash is
already known, otherwise the lockhash is appended to the leaves and the
layers recomputed. -/
def compute_merkletree_with (merkletree : MerkleTreeState) (lockhash : Nat) :
    Option MerkleTreeState :=
  if lockhash ∈ merkletree.leaves then none
  else some ⟨merkletree.leaves ++ [lockhash]⟩

/-- `compute_merkletree_without`: `None` informs the caller the lockhash is
unknown; removing the last leaf yields the empty tree. -/
def compute_merkletree_without (merkletree : MerkleTreeState) (lockhash : Nat) :
    Option MerkleTreeState :=
  if lockhash ∈ merkletree.leaves then
    let leaves := merkletree.leaves.erase lockhash
    if leaves.isEmpty then some make_empty_merkle_tree
    else some ⟨leaves⟩
  else none

/-- `get_lock`: the lock for `secrethash`, searched through the three lock
maps in order, or `None` if unknown. -/
def get_lock (end_state : NettingChannelEndState) (secrethash : Nat) :
    Option HashTimeLockState :=
  match AssocMap.find? end_state.secrethashes_to_lockedlocks secrethash with
  | some lock => some lock
  | none =>
      match AssocMap.find? end_state.secrethashes_to_unlockedlocks secrethash with
      | some partial_unlock => some partial_unlock.lock
      | none =>
          match AssocMap.find? end_state.secrethashes_to_onchain_unlockedlocks
              secrethash with
          | some partial_unlock => some partial_unlock.lock
          | none => none

/-- `is_lock_pending`: the secrethash is in one of the three lock maps. -/
def is_lock_pending (end_state : NettingChannelEndState) (secrethash : Nat) : Bool :=
  AssocMap.mem end_state.secrethashes_to_lockedlocks secrethash
    || AssocMap.mem end_state.secrethashes_to_unlockedlocks secrethash
    || AssocMap.mem end_state.secrethashes_to_onchain_unlockedlocks secrethash

/-- `is_lock_locked`: secret unknown for `secrethash`. -/
def is_lock_locked (end_state : NettingChannelEndState) (secrethash : Nat) : Bool :=
  AssocMap.mem end_state.secrethashes_to_lockedlocks secrethash

/-- `_del_unclaimed_lock`: drop `secrethash` from the locked and (off-chain)
unlocked maps. -/
def _del_unclaimed_lock (end_state : NettingChannelEndState) (secrethash : Nat) :
    NettingChannelEndState :=
  { end_state with
    secrethashes_to_lockedlocks :=
      AssocMap.erase end_state.secrethashes_to_lockedlocks secrethash
    secrethashes_to_unlockedlocks :=
      AssocMap.erase end_state.secrethashes_to_unlockedlocks secrethash }

/-- `_del_lock`: drop `secrethash` from all three lock maps (the merkletree
is untouched).  The source asserts `is_lock_pending`; every call site below
satisfies it. -/
def _del_lock (end_state : NettingChannelEndState) (secrethash : Nat) :
    NettingChannelEndState :=
  let end_state := _del_unclaimed_lock end_state secrethash
  { end_state with
    secrethashes_to_onchain_unlockedlocks :=
      AssocMap.erase end_state.secrethashes_to_onchain_unlockedlocks secrethash }

/-- `set_settled`: record the successful settle transaction, or fill in the
finished block of a running one. -/
def set_settled (channel_state : NettingChannelState) (block_number : Nat) :
    NettingChannelState :=
  match channel_state.settle_transaction with
  | none =>
      { channel_state with
        settle_transaction :=
          some ⟨none, some block_number, some TxStatus.success⟩ }
  | some settle_tx =>
      if settle_tx.finished_block_number = none then
        { channel_state with
          settle_transaction :=
            some { settle_tx with
                   finished_block_number := some block_number
                   result := some TxStatus.success } }
      else channel_state

/-- `update_contract_balance`: the on-chain balance only ever grows. -/
def update_contract_balance (end_state : NettingChannelEndState)
    (contract_balance : Int) : NettingChannelEndState :=
  if end_state.contract_balance < contract_balance then
    { end_state with contract_balance := contract_balance }
  else end_state

/-- `valid_lockedtransfer_check` (spec §4.B locked-transfer check): the
candidate tree is `with(sender.merkletree, lock.lockhash)`; the new balance
proof must keep `transferred_amount`, grow `locked_amount` by the lock
amount, match the candidate root, respect the pending-transfer cap and the
distributable amount.  The `message_name` string parameter of the source
only decorates the error messages and is dropped here. -/
def valid_lockedtransfer_check (E : CryptoEnv)
    (channel_state : NettingChannelState)
    (sender_state receiver_state : NettingChannelEndState)
    (received_balance_proof : BalanceProof)
    (lock : HashTimeLockState) : MerkletreeOrError :=
  let current_balance_proof := get_current_balanceproof sender_state
  let candidate := compute_merkletree_with sender_state.merkletree lock.lockhash
  let current_transferred_amount := current_balance_proof.2.2.1
  let current_locked_amount := current_balance_proof.2.2.2
  let distributable := get_distributable sender_state receiver_state
  let expected_locked_amount := current_locked_amount + lock.amount
  let usable := is_balance_proof_usable_onchain E received_balance_proof
    channel_state sender_state
  if usable.1 = false then
    (false, usable.2, none)
  else
    match candidate with
    | none => (false, some ErrorReason.lockhashKnown, none)
    | some merkletree =>
        if _merkletree_width merkletree > MAXIMUM_PENDING_TRANSFERS then
          (false, some ErrorReason.pendingTransfersLimit, none)
        else
          let locksroot_with_lock := merkleroot E merkletree
          if received_balance_proof.locksroot ≠ locksroot_with_lock then
            (false, some ErrorReason.locksrootMismatch, none)
          else if received_balance_proof.transferred_amount
              ≠ current_transferred_amount then
            (false, some ErrorReason.transferredAmountMismatch, none)
          else if received_balance_proof.locked_amount ≠ expected_locked_amount then
            (false, some ErrorReason.lockedAmountMismatch, none)
          else if lock.amount > distributable then
            (false, some ErrorReason.amountOverDistributable, none)
          else
            (true, none, some merkletree)

/-- `ReceiveUnlock` state change: the fields the channel handlers read. -/
structure ReceiveUnlock where
  message_identifier : Nat
  secret : Nat
  secrethash : Nat
  balance_proof : BalanceProof
deriving DecidableEq

/-- `is_valid_unlock` (spec §4.B unlock check): the lock must exist on the
sender side, the candidate tree is `without(sender.merkletree, lockhash)`,
`transferred_amount` grows and `locked_amount` shrinks by the lock amount. -/
def is_valid_unlock (E : CryptoEnv) (unlock : ReceiveUnlock)
    (channel_state : NettingChannelState)
    (sender_state : NettingChannelEndState) : MerkletreeOrError :=
  let received_balance_proof := unlock.balance_proof
  let current_balance_proof := get_current_balanceproof sender_state
  match get_lock sender_state unlock.secrethash with
  | none => (false, some ErrorReason.noCorrespondingLock, none)
  | some lock =>
      match compute_merkletree_without sender_state.merkletree lock.lockhash with
      | none => (false, some ErrorReason.lockhashUnknown, none)
      | some merkletree =>
          let locksroot_without_lock := merkleroot E merkletree
          let current_transferred_amount := current_balance_proof.2.2.1
          let current_locked_amount := current_balance_proof.2.2.2
          let expected_transferred_amount :=
            current_transferred_amount + lock.amount
          let expected_locked_amount := current_locked_amount - lock.amount
          let usable := is_balance_proof_usable_onchain E received_balance_proof
            channel_state sender_state
          if usable.1 = false then
            (false, usable.2, none)
          else if received_balance_proof.locksroot ≠ locksroot_without_lock then
            (false, some ErrorReason.locksrootMismatch, none)
          else if received_balance_proof.transferred_amount
              ≠ expected_transferred_amount then
            (false, some ErrorReason.transferredAmountMismatch, none)
          else if received_balance_proof.locked_amount
              ≠ expected_locked_amount then
            (false, some ErrorReason.lockedAmountMismatch, none)
          else
            (true, none, some merkletree)

/-- `handle_unlock`: on a valid unlock, commit the received balance proof
and candidate tree to the partner state and evict the lock; on an invalid
one emit a single `EventInvalidReceivedUnlock` and leave the state
untouched.  Returns the source's `EventsOrError` next to the new state. -/
def handle_unlock (E : CryptoEnv) (channel_state : NettingChannelState)
    (unlock : ReceiveUnlock) :
    (Bool × List Event × Option ErrorReason) × NettingChannelState :=
  match is_valid_unlock E unlock channel_state channel_state.partner_state with
  | (true, msg, some unlocked_merkletree) =>
      let partner_state := channel_state.partner_state
      let partner_state :=
        { partner_state with
          balance_proof := some unlock.balance_proof
          merkletree := unlocked_merkletree }
      let partner_state := _del_lock partner_state unlock.secrethash
      let channel_state := { channel_state with partner_state := partner_state }
      ((true,
        [Event.sendProcessed unlock.balance_proof.sender unlock.message_identifier],
        msg), channel_state)
  | (true, msg, none) =>
      -- dead branch: the source asserts a merkletree is returned whenever
      -- the unlock is valid, which `is_valid_unlock` guarantees
      ((true, [], msg), channel_state)
  | (false, msg, _) =>
      ((false, [Event.eventInvalidReceivedUnlock unlock.secrethash msg], msg),
       channel_state)

/-- `ReceiveWithdrawRequest` state change: the fields the handlers read. -/
structure ReceiveWithdrawRequest where
  message_identifier : Nat
  token_network_identifier : Nat
  channel_identifier : Nat
  amount : Int
  signature : Nat
deriving DecidableEq

/-- `is_valid_withdraw_request`: the partner-side balance must cover the
requested amount and the signature over the packed `WithdrawRequest`
message must recover to the partner address. -/
def is_valid_withdraw_request (E : CryptoEnv)
    (withdraw_request : ReceiveWithdrawRequest)
    (channel_state : NettingChannelState) : SuccessOrError :=
  let balance := get_balance channel_state.partner_state channel_state.our_state
  let packed := E.pack_withdraw_request withdraw_request.message_identifier
    withdraw_request.token_network_identifier
    withdraw_request.channel_identifier withdraw_request.amount
  let valid_signature := is_valid_signature E packed withdraw_request.signature
    channel_state.partner_state.address
  if balance < withdraw_request.amount then
    (false, some ErrorReason.insufficientBalance)
  else if valid_signature.1 = false then
    (false, valid_signature.2)
  else
    (true, none)

/-- Python truthiness of the `SuccessOrError` 2-tuple: a non-empty tuple is
always truthy, whatever its components. -/
def pair_is_truthy (_ : SuccessOrError) : Bool := true

/-- `handle_receive_withdraw_request`.  The source guards the event with
`if is_valid_withdraw_request(withdraw_request, channel_state):`, i.e. it
tests the truthiness of the returned 2-tuple, not its boolean component;
`message_identifier` stands for `message_identifier_from_prng(prng)`. -/
def handle_receive_withdraw_request (E : CryptoEnv)
    (channel_state : NettingChannelState)
    (withdraw_request : ReceiveWithdrawRequest)
    (message_identifier : Nat) : TransitionResult :=
  if pair_is_truthy (is_valid_withdraw_request E withdraw_request channel_state) then
    ⟨some channel_state,
     [Event.sendWithdraw channel_state.partner_state.address
        channel_state.token_network_address channel_state.identifier
        message_identifier withdraw_request.amount]⟩
  else
    ⟨some channel_state, []⟩

/-- `Block` state change. -/
structure Block where
  block_number : Nat
  block_hash : Nat
deriving DecidableEq

/-- `ContractReceiveChannelSettled` state change. -/
structure ContractReceiveChannelSettled where
  channel_identifier : Nat
  block_number : Nat
  block_hash : Nat
  our_onchain_locksroot : Nat
  partner_onchain_locksroot : Nat
deriving DecidableEq

/-- `ContractReceiveChannelBatchUnlock` state change: the handler only reads
the sender of the on-chain unlock. -/
structure ContractReceiveChannelBatchUnlock where
  sender : Nat
deriving DecidableEq

/-- `ContractReceiveChannelNewBalance` state change. -/
structure ContractReceiveChannelNewBalance where
  deposit_transaction : TransactionChannelNewBalance
deriving DecidableEq

/-- `apply_channel_newbalance`: route the confirmed deposit to the end-state
whose address matches the depositing participant. -/
def apply_channel_newbalance (channel_state : NettingChannelState)
    (deposit_transaction : TransactionChannelNewBalance) : NettingChannelState :=
  let participant_address := deposit_transaction.participant_address
  let contract_balance := deposit_transaction.contract_balance
  if participant_address = channel_state.our_state.address then
    { channel_state with
      our_state := update_contract_balance channel_state.our_state contract_balance }
  else if participant_address = channel_state.partner_state.address then
    { channel_state with
      partner_state :=
        update_contract_balance channel_state.partner_state contract_balance }
  else channel_state

/-- `heapq.heappush` on the deposit queue, as sorted insertion by block
number. -/
def push_transaction_order : List TransactionOrder → TransactionOrder →
    List TransactionOrder
  | [], order => [order]
  | first :: rest, order =>
      if order.block_number < first.block_number then order :: first :: rest
      else first :: push_transaction_order rest order

/-- `handle_channel_newbalance`: apply a confirmed deposit immediately,
queue an unconfirmed one. -/
def handle_channel_newbalance (channel_state : NettingChannelState)
    (state_change : ContractReceiveChannelNewBalance)
    (block_number : Nat) : TransitionResult :=
  let deposit_transaction := state_change.deposit_transaction
  if is_transaction_confirmed deposit_transaction.deposit_block_number
      block_number then
    ⟨some (apply_channel_newbalance channel_state deposit_transaction), []⟩
  else
    let order := TransactionOrder.mk deposit_transaction.deposit_block_number
      deposit_transaction
    ⟨some { channel_state with
            deposit_transaction_queue :=
              push_transaction_order channel_state.deposit_transaction_queue order },
     []⟩

/-- The `while is_deposit_confirmed` loop of `handle_block`: pop and apply
queue entries from the front while the front entry is confirmed. -/
def handle_block_deposits (block_number : Nat) :
    List TransactionOrder → NettingChannelState → NettingChannelState
  | [], channel_state => { channel_state with deposit_transaction_queue := [] }
  | order :: rest, channel_state =>
      if is_transaction_confirmed order.block_number block_number then
        handle_block_deposits block_number rest
          (apply_channel_newbalance channel_state order.transaction)
      else
        { channel_state with deposit_transaction_queue := order :: rest }

/-- The `CHANNEL_STATE_CLOSED` branch of `handle_block`: past the settlement
window, record a running settle transaction and emit
`ContractSendChannelSettle`.  The source asserts the close transaction and
its finished block are present whenever the status is closed; the
assertion-violating cases return the state unchanged. -/
def handle_block_closed_branch (channel_state : NettingChannelState)
    (state_change : Block) : NettingChannelState × List Event :=
  if get_status channel_state = ChannelStatus.closed then
    match channel_state.close_transaction with
    | none => (channel_state, [])
    | some close_tx =>
        match close_tx.finished_block_number with
        | none => (channel_state, [])
        | some closed_block_number =>
            let settlement_end := closed_block_number + channel_state.settle_timeout
            if settlement_end < state_change.block_number then
              ({ channel_state with
                 settle_transaction :=
                   some ⟨some state_change.block_number, none, none⟩ },
               [Event.contractSendChannelSettle channel_state.chain_id
                  channel_state.token_network_address channel_state.identifier
                  state_change.block_hash])
            else (channel_state, [])
  else (channel_state, [])

/-- `handle_block`: settlement auto-trigger followed by the confirmed
deposit drain.  The source asserts `state_change.block_number ==
block_number`. -/
def handle_block (channel_state : NettingChannelState) (state_change : Block)
    (block_number : Nat) : TransitionResult :=
  let closed_step := handle_block_closed_branch channel_state state_change
  let drained := handle_block_deposits block_number
    closed_step.1.deposit_transaction_queue closed_step.1
  ⟨some drained, closed_step.2⟩

/-- `handle_channel_settled`: on the matching channel, record settlement;
with both reported on-chain locksroots empty the channel is disposed,
otherwise the locksroots are stored and a batch unlock is requested. -/
def handle_channel_settled (channel_state : NettingChannelState)
    (state_change : ContractReceiveChannelSettled) : TransitionResult :=
  if state_change.channel_identifier = channel_state.identifier then
    let channel_state := set_settled channel_state state_change.block_number
    let our_locksroot := state_change.our_onchain_locksroot
    let partner_locksroot := state_change.partner_onchain_locksroot
    if our_locksroot = EMPTY_MERKLE_ROOT ∧ partner_locksroot = EMPTY_MERKLE_ROOT then
      ⟨none, []⟩
    else
      ⟨some { channel_state with
              our_state :=
                { channel_state.our_state with onchain_locksroot := our_locksroot }
              partner_state :=
                { channel_state.partner_state with
                  onchain_locksroot := partner_locksroot } },
       [Event.contractSendChannelBatchUnlock channel_state.chain_id
          channel_state.token_network_address channel_state.identifier
          channel_state.partner_state.address state_change.block_hash]⟩
  else
    ⟨some channel_state, []⟩

/-- `handle_channel_batch_unlock`: only on a settled channel, clear the
on-chain locksroot of the side whose address sent the unlock; dispose of the
channel once both sides are cleared. -/
def handle_channel_batch_unlock (channel_state : NettingChannelState)
    (state_change : ContractReceiveChannelBatchUnlock) : TransitionResult :=
  if get_status channel_state = ChannelStatus.settled then
    let channel_state :=
      if state_change.sender = channel_state.our_state.address then
        { channel_state with
          our_state :=
            { channel_state.our_state with onchain_locksroot := EMPTY_MERKLE_ROOT } }
      else if state_change.sender = channel_state.partner_state.address then
        { channel_state with
          partner_state :=
            { channel_state.partner_state with
              onchain_locksroot := EMPTY_MERKLE_ROOT } }
      else channel_state
    let no_unlock_left_to_do :=
      channel_state.our_state.onchain_locksroot = EMPTY_MERKLE_ROOT
        ∧ channel_state.partner_state.onchain_locksroot = EMPTY_MERKLE_ROOT
    if no_unlock_left_to_do then ⟨none, []⟩
    else ⟨some channel_state, []⟩
  else
    ⟨some channel_state, []⟩

/-- The pending-lock lookup of `register_onchain_secret_endstate`: the two
sequential `if` statements of the source take the lock from the locked map
and then (overriding) from the off-chain unlocked map. -/
def get_pending_reveal_lock (end_state : NettingChannelEndState)
    (secrethash : Nat) : Option HashTimeLockState :=
  match AssocMap.find? end_state.secrethashes_to_unlockedlocks secrethash with
  | some partial_unlock => some partial_unlock.lock
  | none => AssocMap.find? end_state.secrethashes_to_lockedlocks secrethash

/-- `register_onchain_secret_endstate`: a reveal mined after the pending
lock expired is ignored; otherwise the lock moves to the on-chain unlocked
map, evicted from the other maps exactly when `delete_lock`; with no pending
lock in the locked or unlocked maps nothing happens. -/
def register_onchain_secret_endstate (end_state : NettingChannelEndState)
    (secret secrethash : Nat) (secret_reveal_block_number : Nat)
    (delete_lock : Bool) : NettingChannelEndState :=
  match get_pending_reveal_lock end_state secrethash with
  | none => end_state
  | some pending_lock =>
      if pending_lock.expiration < secret_reveal_block_number then end_state
      else
        let end_state :=
          if delete_lock then _del_lock end_state secrethash else end_state
        { end_state with
          secrethashes_to_onchain_unlockedlocks :=
            AssocMap.insert end_state.secrethashes_to_onchain_unlockedlocks
              secrethash ⟨pending_lock, secret⟩ }

/-- `register_onchain_secret`: register the on-chain reveal on both
end-states. -/
def register_onchain_secret (channel_state : NettingChannelState)
    (secret secrethash : Nat) (secret_reveal_block_number : Nat)
    (delete_lock : Bool) : NettingChannelState :=
  { channel_state with
    our_state := register_onchain_secret_endstate channel_state.our_state
      secret secrethash secret_reveal_block_number delete_lock
    partner_state := register_onchain_secret_endstate channel_state.partner_state
      secret secrethash secret_reveal_block_number delete_lock }

/-! ### Association-map lemmas -/

theorem AssocMap.find?_erase {α : Type} (m : AssocMap α) (k : Nat) :
    AssocMap.find? (AssocMap.erase m k) k = none := by
  induction m with
  | nil => rfl
  | cons p rest ih =>
      obtain ⟨k2, v⟩ := p
      by_cases hk : k2 = k
      · simpa [AssocMap.erase, List.filter_cons, hk] using ih
      · simpa [AssocMap.erase, List.filter_cons, hk, AssocMap.find?] using ih

theorem AssocMap.find?_insert_self {α : Type} (m : AssocMap α) (k : Nat) (v : α) :
    AssocMap.find? (AssocMap.insert m k v) k = some v := by
  induction m with
  | nil => simp [AssocMap.insert, AssocMap.find?]
  | cons p rest ih =>
      by_cases hk : p.1 = k
      · simp [AssocMap.insert, AssocMap.find?, hk]
      · simpa [AssocMap.insert, AssocMap.find?, hk] using ih

/-! ### Test fixtures: concrete values for the witness theorems.  The
crypto environment `EnvTest` recovers address 7 from any data, so that
signatures by the fixture partner (address 7) validate. -/

/-- Concrete crypto environment for witnesses. -/
def EnvTest : CryptoEnv where
  recover := fun _ _ => some 7
  hash_balance_data := fun _ _ _ => 11
  pack_balance_proof := fun _ _ _ _ _ _ => 12
  pack_withdraw_request := fun _ _ _ _ => 13
  hash_pair := fun a b => a + b + 1

/-- Concrete end-state: fixture partner, address 7, holding one pending
lock with secrethash 5 and lockhash 42, under balance proof nonce 1. -/
def endTestPartner : NettingChannelEndState where
  address := 7
  contract_balance := 100
  total_withdraw := 0
  balance_proof := some
    { nonce := 1
      transferred_amount := 0
      locked_amount := 10
      locksroot := 42
      chain_id := 1
      token_network_address := 2
      channel_identifier := 3
      message_hash := 0
      signature := 0
      sender := 7 }
  merkletree := ⟨[42]⟩
  secrethashes_to_lockedlocks :=
    [(5, { amount := 10, expiration := 90, secrethash := 5, lockhash := 42 })]
  secrethashes_to_unlockedlocks := []
  secrethashes_to_onchain_unlockedlocks := []
  onchain_locksroot := 0

/-- Concrete end-state: fixture for our side, address 8, no pending locks. -/
def endTestOurs : NettingChannelEndState where
  address := 8
  contract_balance := 50
  total_withdraw := 0
  balance_proof := none
  merkletree := ⟨[]⟩
  secrethashes_to_lockedlocks := []
  secrethashes_to_unlockedlocks := []
  secrethashes_to_onchain_unlockedlocks := []
  onchain_locksroot := 0

/-- Concrete open channel built from the fixture end-states. -/
def chanTest : NettingChannelState where
  chain_id := 1
  token_network_address := 2
  identifier := 3
  token_address := 4
  our_state := endTestOurs
  partner_state := endTestPartner
  reveal_timeout := 10
  settle_timeout := 20
  mediation_fee := 0
  close_transaction := none
  settle_transaction := none
  update_transaction := none
  deposit_transaction_queue := []

/-! ### C10: contract balance monotonicity -/

/-- Lemma: the closed-channel settlement branch of `handle_block` leaves the
end-states and the deposit queue untouched. -/
theorem handle_block_closed_branch_frame (channel_state : NettingChannelState)
    (state_change : Block) :
    (handle_block_closed_branch channel_state state_change).1.our_state
        = channel_state.our_state
    ∧ (handle_block_closed_branch channel_state state_change).1.partner_state
        = channel_state.partner_state
    ∧ (handle_block_closed_branch channel_state state_change).1.deposit_transaction_queue
        = channel_state.deposit_transaction_queue := by
  unfold handle_block_closed_branch
  split
  · split
    · simp
    · split
      · simp
      · dsimp only
        split <;> simp
  · simp

/-- Lemma: `apply_channel_newbalance` never decreases either side's
contract balance and touches nothing else. -/
theorem apply_channel_newbalance_mono (channel_state : NettingChannelState)
    (tx : TransactionChannelNewBalance) :
    channel_state.our_state.contract_balance
        ≤ (apply_channel_newbalance channel_state tx).our_state.contract_balance
    ∧ channel_state.partner_state.contract_balance
        ≤ (apply_channel_newbalance channel_state tx).partner_state.contract_balance
    ∧ (apply_channel_newbalance channel_state tx).deposit_transaction_queue
        = channel_state.deposit_transaction_queue := by
  unfold apply_channel_newbalance update_contract_balance
  dsimp only
  split
  · split <;> simp <;> omega
  · split
    · split <;> simp <;> omega
    · simp

/-- Lemma: the deposit drain never decreases either side's contract
balance. -/
theorem handle_block_deposits_mono (block_number : Nat) :
    ∀ (queue : List TransactionOrder) (channel_state : NettingChannelState),
    channel_state.our_state.contract_balance
        ≤ (handle_block_deposits block_number queue channel_state).our_state.contract_balance
    ∧ channel_state.partner_state.contract_balance
        ≤ (handle_block_deposits block_number queue channel_state).partner_state.contract_balance := by
  intro queue
  induction queue with
  | nil => intro channel_state; simp [handle_block_deposits]
  | cons order rest ih =>
      intro channel_state
      unfold handle_block_deposits
      split
      · have happ := apply_channel_newbalance_mono channel_state order.transaction
        have hrec := ih (apply_channel_newbalance channel_state order.transaction)
        exact ⟨le_trans happ.1 hrec.1, le_trans happ.2.1 hrec.2⟩
      · simp

/-- C10: `update_contract_balance` replaces the contract balance only when
the reported value is strictly larger, so the contract balance of each
end-state never decreases under `apply_channel_newbalance`, under
`ContractReceiveChannelNewBalance` handling, and under the confirmed
deposits popped during `Block` handling; a report of a smaller or equal
balance leaves the end-state unchanged. -/
theorem c10_contract_balance_monotone :
    (∀ (end_state : NettingChannelEndState) (reported : Int),
        end_state.contract_balance
            ≤ (update_contract_balance end_state reported).contract_balance
      ∧ (reported ≤ end_state.contract_balance →
          update_contract_balance end_state reported = end_state)
      ∧ (end_state.contract_balance < reported →
          (update_contract_balance end_state reported).contract_balance = reported))
    ∧ (∀ (channel_state : NettingChannelState) (tx : TransactionChannelNewBalance),
        channel_state.our_state.contract_balance
            ≤ (apply_channel_newbalance channel_state tx).our_state.contract_balance
      ∧ channel_state.partner_state.contract_balance
            ≤ (apply_channel_newbalance channel_state tx).partner_state.contract_balance)
    ∧ (∀ (channel_state : NettingChannelState)
        (state_change : ContractReceiveChannelNewBalance) (block_number : Nat),
        ∃ channel_state2,
          (handle_channel_newbalance channel_state state_change block_number).new_state
              = some channel_state2
          ∧ channel_state.our_state.contract_balance
              ≤ channel_state2.our_state.contract_balance
          ∧ channel_state.partner_state.contract_balance
              ≤ channel_state2.partner_state.contract_balance)
    ∧ (∀ (channel_state : NettingChannelState) (state_change : Block)
        (block_number : Nat),
        ∃ channel_state2,
          (handle_block channel_state state_change block_number).new_state
              = some channel_state2
          ∧ channel_state.our_state.contract_balance
              ≤ channel_state2.our_state.contract_balance
          ∧ channel_state.partner_state.contract_balance
              ≤ channel_state2.partner_state.contract_balance) := by
  refine ⟨?_, ?_, ?_, ?_⟩
  · intro end_state reported
    unfold update_contract_balance
    refine ⟨?_, ?_, ?_⟩
    · split <;> simp <;> omega
    · intro hle
      split
      · omega
      · rfl
    · intro hlt
      split
      · simp
      · omega
  · intro channel_state tx
    exact ⟨(apply_channel_newbalance_mono channel_state tx).1,
           (apply_channel_newbalance_mono channel_state tx).2.1⟩
  · intro channel_state state_change block_number
    unfold handle_channel_newbalance
    dsimp only
    split
    · exact ⟨_, rfl, (apply_channel_newbalance_mono channel_state _).1,
             (apply_channel_newbalance_mono channel_state _).2.1⟩
    · exact ⟨_, rfl, le_refl _, le_refl _⟩
  · intro channel_state state_change block_number
    refine ⟨_, rfl, ?_, ?_⟩
    · have hframe := handle_block_closed_branch_frame channel_state state_change
      have hdrain := handle_block_deposits_mono block_number
        (handle_block_closed_branch channel_state state_change).1.deposit_transaction_queue
        (handle_block_closed_branch channel_state state_change).1
      calc channel_state.our_state.contract_balance
          = (handle_block_closed_branch channel_state state_change).1.our_state.contract_balance := by
            rw [hframe.1]
        _ ≤ _ := hdrain.1
    · have hframe := handle_block_closed_branch_frame channel_state state_change
      have hdrain := handle_block_deposits_mono block_number
        (handle_block_closed_branch channel_state state_change).1.deposit_transaction_queue
        (handle_block_closed_branch channel_state state_change).1
      calc channel_state.partner_state.contract_balance
          = (handle_block_closed_branch channel_state state_change).1.partner_state.contract_balance := by
            rw [hframe.2.1]
        _ ≤ _ := hdrain.2

/-- C10 witness: the theorem applied at the fixture end-state (contract
balance 50) with a smaller report (5) and with `apply_channel_newbalance`. -/
theorem c10_witness :
    ((5 : Int) ≤ endTestOurs.contract_balance
      ∧ update_contract_balance endTestOurs 5 = endTestOurs)
    ∧ chanTest.our_state.contract_balance
        ≤ (apply_channel_newbalance chanTest
            ⟨8, 200, 0⟩).our_state.contract_balance :=
  ⟨⟨by decide, (c10_contract_balance_monotone.1 endTestOurs 5).2.1 (by decide)⟩,
   (c10_contract_balance_monotone.2.1 chanTest ⟨8, 200, 0⟩).1⟩

/-! ### C8: Merkle insert/remove round-trip -/

/-- C8: for every merkle tree `t` and lockhash `h` not among its leaves,
inserting `h` with `compute_merkletree_with` and removing it again with
`compute_merkletree_without` yields a tree with the same root as `t`. -/
theorem c8_merkletree_with_without_roundtrip (E : CryptoEnv)
    (t : MerkleTreeState) (h : Nat) (hnotin : h ∉ t.leaves) :
    ∃ t1 t2, compute_merkletree_with t h = some t1
      ∧ compute_merkletree_without t1 h = some t2
      ∧ merkleroot E t2 = merkleroot E t := by
  refine ⟨⟨t.leaves ++ [h]⟩, ⟨t.leaves⟩, ?_, ?_, ?_⟩
  · simp [compute_merkletree_with, hnotin]
  · have herase : (t.leaves ++ [h]).erase h = t.leaves := by
      rw [List.erase_append_right _ hnotin]
      simp
    by_cases hnil : t.leaves = []
    · simp [compute_merkletree_without, herase, hnil, make_empty_merkle_tree]
    · simp [compute_merkletree_without, herase, hnil, List.isEmpty_iff]
  · rfl

/-- C8 witness: the round-trip evaluated on the one-leaf tree `[3]` with
lockhash 7 under the fixture environment. -/
theorem c8_witness :
    7 ∉ MerkleTreeState.leaves ⟨[3]⟩
    ∧ ∃ t1 t2, compute_merkletree_with ⟨[3]⟩ 7 = some t1
      ∧ compute_merkletree_without t1 7 = some t2
      ∧ merkleroot EnvTest t2 = merkleroot EnvTest ⟨[3]⟩ :=
  ⟨by decide, c8_merkletree_with_without_roundtrip EnvTest ⟨[3]⟩ 7 (by decide)⟩

/-! ### C2: withdraw-request handling (code bug: tuple truthiness) -/

/-- Fixture withdraw request: amount 200 exceeds the fixture partner-side
balance of 100, so `is_valid_withdraw_request` rejects it. -/
def withdrawRequestTest : ReceiveWithdrawRequest where
  message_identifier := 21
  token_network_identifier := 2
  channel_identifier := 3
  amount := 200
  signature := 0

/-- C2: the code evaluated at a failing input.  The withdraw request is
invalid (insufficient partner balance: 100 < 200), yet
`handle_receive_withdraw_request` still emits `SendWithdraw`, because the
source tests the truthiness of the `(False, msg)` tuple, which is a
non-empty tuple and hence always truthy; the channel state is returned
unchanged. -/
theorem c2_invalid_request_still_sends_withdraw :
    is_valid_withdraw_request EnvTest withdrawRequestTest chanTest
        = (false, some ErrorReason.insufficientBalance)
    ∧ handle_receive_withdraw_request EnvTest chanTest withdrawRequestTest 77
        = ⟨some chanTest,
           [Event.sendWithdraw 7 2 3 77 200]⟩ := by
  constructor
  · decide
  · rfl

/-! ### C9: on-chain secret registration -/

/-- C9 counterexample: in the fixture channel only the partner end-state
holds the pending lock (secrethash 5, expiration 90); registering the
on-chain secret at reveal block 50 places the `(lock, secret)` pair in the
partner's `onchain_unlocked_locks` but NOT in our side's, refuting the
claim's "places the pair in onchain_unlocked_locks on both end-states". -/
theorem c9_counterexample_only_holding_side_updated :
    is_lock_pending chanTest.partner_state 5 = true
    ∧ is_lock_pending chanTest.our_state 5 = false
    ∧ ¬ ((90 : Nat) < 50)
    ∧ AssocMap.find?
        (register_onchain_secret chanTest 9 5 50
          true).partner_state.secrethashes_to_onchain_unlockedlocks 5
        = some ⟨{ amount := 10, expiration := 90, secrethash := 5, lockhash := 42 }, 9⟩
    ∧ (register_onchain_secret chanTest 9 5 50
        true).our_state.secrethashes_to_onchain_unlockedlocks = [] := by
  refine ⟨by decide, by decide, by decide, by decide, by decide⟩

/-- C9 (amended): `register_onchain_secret` applies
`register_onchain_secret_endstate` to both end-states; on each end-state,
if the pending lock (from `locked_locks` or `unlocked_locks`) expired
strictly before the reveal block the end-state is completely unchanged;
otherwise the `(lock, secret)` pair is placed in that end-state's
`onchain_unlocked_locks`, with the secrethash evicted from `locked_locks`
and `unlocked_locks` exactly when `delete_lock` is true; an end-state not
holding the pending lock is left unchanged. -/
theorem c9_register_onchain_secret_behaviour :
    (∀ (end_state : NettingChannelEndState)
      (secret secrethash reveal_block : Nat) (delete_lock : Bool),
      (get_pending_reveal_lock end_state secrethash = none →
        register_onchain_secret_endstate end_state secret secrethash
          reveal_block delete_lock = end_state)
      ∧ (∀ lock, get_pending_reveal_lock end_state secrethash = some lock →
          lock.expiration < reveal_block →
          register_onchain_secret_endstate end_state secret secrethash
            reveal_block delete_lock = end_state)
      ∧ (∀ lock, get_pending_reveal_lock end_state secrethash = some lock →
          ¬ lock.expiration < reveal_block →
          AssocMap.find?
              (register_onchain_secret_endstate end_state secret secrethash
                reveal_block delete_lock).secrethashes_to_onchain_unlockedlocks
              secrethash
            = some ⟨lock, secret⟩
          ∧ (delete_lock = true →
              AssocMap.find?
                  (register_onchain_secret_endstate end_state secret secrethash
                    reveal_block delete_lock).secrethashes_to_lockedlocks
                  secrethash = none
              ∧ AssocMap.find?
                  (register_onchain_secret_endstate end_state secret secrethash
                    reveal_block delete_lock).secrethashes_to_unlockedlocks
                  secrethash = none)
          ∧ (delete_lock = false →
              (register_onchain_secret_endstate end_state secret secrethash
                reveal_block delete_lock).secrethashes_to_lockedlocks
                = end_state.secrethashes_to_lockedlocks
              ∧ (register_onchain_secret_endstate end_state secret secrethash
                  reveal_block delete_lock).secrethashes_to_unlockedlocks
                  = end_state.secrethashes_to_unlockedlocks)))
    ∧ (∀ (channel_state : NettingChannelState)
      (secret secrethash reveal_block : Nat) (delete_lock : Bool),
      (register_onchain_secret channel_state secret secrethash reveal_block
        delete_lock).our_state
        = register_onchain_secret_endstate channel_state.our_state secret
            secrethash reveal_block delete_lock
      ∧ (register_onchain_secret channel_state secret secrethash reveal_block
          delete_lock).partner_state
          = register_onchain_secret_endstate channel_state.partner_state secret
              secrethash reveal_block delete_lock) := by
  constructor
  · intro end_state secret secrethash reveal_block delete_lock
    refine ⟨?_, ?_, ?_⟩
    · intro hnone
      unfold register_onchain_secret_endstate
      rw [hnone]
    · intro lock hsome hexp
      unfold register_onchain_secret_endstate
      rw [hsome]
      simp [hexp]
    · intro lock hsome hexp
      unfold register_onchain_secret_endstate
      rw [hsome]
      simp only [if_neg hexp]
      cases delete_lock with
      | true =>
          refine ⟨?_, ?_, ?_⟩
          · simpa using AssocMap.find?_insert_self _ secrethash
              (⟨lock, secret⟩ : UnlockPartialProofState)
          · intro _
            exact ⟨AssocMap.find?_erase _ _, AssocMap.find?_erase _ _⟩
          · intro hfalse
            cases hfalse
      | false =>
          refine ⟨?_, ?_, ?_⟩
          · simpa using AssocMap.find?_insert_self _ secrethash
              (⟨lock, secret⟩ : UnlockPartialProofState)
          · intro htrue
            cases htrue
          · intro _
            exact ⟨rfl, rfl⟩
  · intro channel_state secret secrethash reveal_block delete_lock
    exact ⟨rfl, rfl⟩

/-- C9 witness: the amended behaviour applied to the fixture partner
end-state (pending lock with expiration 90, reveal block 50,
`delete_lock = true`). -/
theorem c9_witness :
    get_pending_reveal_lock endTestPartner 5
        = some { amount := 10, expiration := 90, secrethash := 5, lockhash := 42 }
    ∧ ¬ (90 : Nat) < 50
    ∧ AssocMap.find?
        (register_onchain_secret_endstate endTestPartner 9 5 50
          true).secrethashes_to_onchain_unlockedlocks 5
        = some ⟨{ amount := 10, expiration := 90, secrethash := 5, lockhash := 42 }, 9⟩ :=
  ⟨by decide, by decide,
    ((c9_register_onchain_secret_behaviour.1 endTestPartner 9 5 50 true).2.2
      { amount := 10, expiration := 90, secrethash := 5, lockhash := 42 }
      (by decide) (by decide)).1⟩

/-! ### C7: settlement and batch unlock -/

/-- Lemma: `set_settled` only touches the settle-transaction slot. -/
theorem set_settled_frame (channel_state : NettingChannelState)
    (block_number : Nat) :
    (set_settled channel_state block_number).chain_id = channel_state.chain_id
    ∧ (set_settled channel_state block_number).token_network_address
        = channel_state.token_network_address
    ∧ (set_settled channel_state block_number).identifier
        = channel_state.identifier
    ∧ (set_settled channel_state block_number).our_state
        = channel_state.our_state
    ∧ (set_settled channel_state block_number).partner_state
        = channel_state.partner_state := by
  unfold set_settled
  split
  · simp
  · split <;> simp

/-- C7: on a `ContractReceiveChannelSettled` with matching channel
identifier, the handler disposes of the channel (`new_state = none`) when
both reported on-chain locksroots are `EMPTY_ROOT`, and otherwise stores the
two locksroots on the end-states and emits a
`ContractSendChannelBatchUnlock`; on a `ContractReceiveChannelBatchUnlock`
in status `SETTLED` (with distinct participant addresses), the side whose
address equals the state change's sender has its `onchain_locksroot`
cleared, the other side keeps its value, and the handler returns
`new_state = none` exactly when both sides' locksroots are `EMPTY_ROOT`
afterwards. -/
theorem c7_settled_and_batch_unlock :
    (∀ (channel_state : NettingChannelState)
      (state_change : ContractReceiveChannelSettled),
      state_change.channel_identifier = channel_state.identifier →
      state_change.our_onchain_locksroot = EMPTY_MERKLE_ROOT →
      state_change.partner_onchain_locksroot = EMPTY_MERKLE_ROOT →
      handle_channel_settled channel_state state_change = ⟨none, []⟩)
    ∧ (∀ (channel_state : NettingChannelState)
      (state_change : ContractReceiveChannelSettled),
      state_change.channel_identifier = channel_state.identifier →
      ¬ (state_change.our_onchain_locksroot = EMPTY_MERKLE_ROOT
          ∧ state_change.partner_onchain_locksroot = EMPTY_MERKLE_ROOT) →
      ∃ channel_state2,
        (handle_channel_settled channel_state state_change).new_state
            = some channel_state2
        ∧ channel_state2.our_state.onchain_locksroot
            = state_change.our_onchain_locksroot
        ∧ channel_state2.partner_state.onchain_locksroot
            = state_change.partner_onchain_locksroot
        ∧ (handle_channel_settled channel_state state_change).events
            = [Event.contractSendChannelBatchUnlock channel_state.chain_id
                channel_state.token_network_address channel_state.identifier
                channel_state.partner_state.address state_change.block_hash])
    ∧ (∀ (channel_state : NettingChannelState)
      (state_change : ContractReceiveChannelBatchUnlock),
      get_status channel_state = ChannelStatus.settled →
      channel_state.our_state.address ≠ channel_state.partner_state.address →
      ((handle_channel_batch_unlock channel_state state_change).new_state = none
        ↔ (if state_change.sender = channel_state.our_state.address
            then EMPTY_MERKLE_ROOT
            else channel_state.our_state.onchain_locksroot) = EMPTY_MERKLE_ROOT
          ∧ (if state_change.sender = channel_state.partner_state.address
              then EMPTY_MERKLE_ROOT
              else channel_state.partner_state.onchain_locksroot) = EMPTY_MERKLE_ROOT)
      ∧ (∀ channel_state2,
          (handle_channel_batch_unlock channel_state state_change).new_state
              = some channel_state2 →
          channel_state2.our_state.onchain_locksroot
              = (if state_change.sender = channel_state.our_state.address
                  then EMPTY_MERKLE_ROOT
                  else channel_state.our_state.onchain_locksroot)
          ∧ channel_state2.partner_state.onchain_locksroot
              = (if state_change.sender = channel_state.partner_state.address
                  then EMPTY_MERKLE_ROOT
                  else channel_state.partner_state.onchain_locksroot))
      ∧ (handle_channel_batch_unlock channel_state state_change).events = []) := by
  refine ⟨?_, ?_, ?_⟩
  · intro channel_state state_change hid hour hpartner
    unfold handle_channel_settled
    simp [hid, hour, hpartner]
  · intro channel_state state_change hid hnot
    have hframe := set_settled_frame channel_state state_change.block_number
    unfold handle_channel_settled
    simp only [hid, if_pos rfl, if_neg hnot]
    refine ⟨_, rfl, by simp, by simp, ?_⟩
    simp [hframe.1, hframe.2.1, hframe.2.2.1, hframe.2.2.2.2]
  · intro channel_state state_change hstatus hdistinct
    unfold handle_channel_batch_unlock
    simp only [hstatus, if_pos rfl]
    by_cases hsender_our : state_change.sender = channel_state.our_state.address
    · have hsender_partner :
        state_change.sender ≠ channel_state.partner_state.address := by
        rw [hsender_our]; exact hdistinct
      simp only [hsender_our, if_pos rfl, if_neg hsender_partner]
      by_cases hleft :
        channel_state.partner_state.onchain_locksroot = EMPTY_MERKLE_ROOT
      · simp [hleft, hsender_partner, hdistinct]
      · simp [hleft, hsender_partner, hdistinct]
    · simp only [if_neg hsender_our]
      by_cases hsender_partner :
        state_change.sender = channel_state.partner_state.address
      · simp only [hsender_partner, if_pos rfl]
        by_cases hleft :
          channel_state.our_state.onchain_locksroot = EMPTY_MERKLE_ROOT
        · simp [hleft, hsender_our, hdistinct]
        · simp [hleft, hsender_our, hdistinct]
      · simp only [if_neg hsender_partner]
        by_cases hleft :
          channel_state.our_state.onchain_locksroot = EMPTY_MERKLE_ROOT
        · by_cases hright :
            channel_state.partner_state.onchain_locksroot = EMPTY_MERKLE_ROOT
          · simp [hleft, hright]
          · simp [hleft, hright]
        · simp [hleft]

/-- Fixture settled channel: settle transaction recorded successful, the
partner side still has a non-empty on-chain locksroot (5). -/
def chanSettledTest : NettingChannelState :=
  { chanTest with
    partner_state := { endTestPartner with onchain_locksroot := 5 }
    settle_transaction := some ⟨none, some 60, some TxStatus.success⟩ }

/-- C7 witness: the theorem applied at fixtures: a matching settlement with
both on-chain locksroots empty disposes of the channel, and a batch unlock
by the partner (address 7) of the settled fixture channel clears the last
non-empty locksroot and disposes of the channel. -/
theorem c7_witness :
    handle_channel_settled chanTest ⟨3, 100, 55, 0, 0⟩ = ⟨none, []⟩
    ∧ get_status chanSettledTest = ChannelStatus.settled
    ∧ (handle_channel_batch_unlock chanSettledTest ⟨7⟩).new_state = none :=
  ⟨c7_settled_and_batch_unlock.1 chanTest ⟨3, 100, 55, 0, 0⟩ rfl rfl rfl,
   by decide,
   ((c7_settled_and_batch_unlock.2.2 chanSettledTest ⟨7⟩ (by decide)
      (by decide)).1).mpr (by decide)⟩

/-! ### C6: deposit confirmation during `Block` handling -/

/-- Fixture channel with one queued deposit, mined at block 0, reporting
contract balance 500 for our side (address 8). -/
def chanQueueTest : NettingChannelState :=
  { chanTest with deposit_transaction_queue := [⟨0, ⟨8, 500, 0⟩⟩] }

/-- C6 counterexample: the claim says an entry whose deposit block number
plus `DEFAULT_CONFIRMATIONS` equals the current block `B` is applied on that
`Block` change; at `B = 5` the fixture entry (deposit block 0) satisfies
`0 + DEFAULT_CONFIRMATIONS ≤ 5`, yet `handle_block` leaves both the queue
and the contract balances unchanged, because `is_transaction_confirmed`
requires the strict inequality `deposit block + confirmations < B`. -/
theorem c6_counterexample_boundary_entry_not_applied :
    0 + DEFAULT_NUMBER_OF_BLOCK_CONFIRMATIONS ≤ 5
    ∧ chanQueueTest.deposit_transaction_queue ≠ []
    ∧ handle_block chanQueueTest ⟨5, 99⟩ 5 = ⟨some chanQueueTest, []⟩ := by
  refine ⟨by decide, by decide, by decide⟩

/-- Lemma: `apply_channel_newbalance` acts identically on two channel states
that agree on both end-states. -/
theorem apply_channel_newbalance_agree (s1 s2 : NettingChannelState)
    (tx : TransactionChannelNewBalance)
    (h1 : s1.our_state = s2.our_state)
    (h2 : s1.partner_state = s2.partner_state) :
    (apply_channel_newbalance s1 tx).our_state
        = (apply_channel_newbalance s2 tx).our_state
    ∧ (apply_channel_newbalance s1 tx).partner_state
        = (apply_channel_newbalance s2 tx).partner_state := by
  unfold apply_channel_newbalance
  dsimp only
  rw [h1, h2]
  split
  · simp [h1, h2]
  · split
    · simp [h1, h2]
    · simp [h1, h2]

/-- Lemma: folding confirmed deposits over two channel states that agree on
both end-states yields agreeing end-states. -/
theorem foldl_newbalance_agree :
    ∀ (queue : List TransactionOrder) (s1 s2 : NettingChannelState),
    s1.our_state = s2.our_state → s1.partner_state = s2.partner_state →
    (queue.foldl (fun s o => apply_channel_newbalance s o.transaction) s1).our_state
        = (queue.foldl (fun s o => apply_channel_newbalance s o.transaction) s2).our_state
    ∧ (queue.foldl (fun s o => apply_channel_newbalance s o.transaction) s1).partner_state
        = (queue.foldl (fun s o => apply_channel_newbalance s o.transaction) s2).partner_state := by
  intro queue
  induction queue with
  | nil => intro s1 s2 h1 h2; exact ⟨h1, h2⟩
  | cons o rest ih =>
      intro s1 s2 h1 h2
      have hstep := apply_channel_newbalance_agree s1 s2 o.transaction h1 h2
      exact ih (apply_channel_newbalance s1 o.transaction)
        (apply_channel_newbalance s2 o.transaction) hstep.1 hstep.2

/-- Lemma: with a queue sorted by block number (the heap invariant), the
`while is_deposit_confirmed` loop pops and applies exactly the entries whose
deposit block plus confirmations is strictly below the current block, in
queue order, and keeps the rest. -/
theorem handle_block_deposits_spec (block_number : Nat) :
    ∀ (queue : List TransactionOrder) (channel_state : NettingChannelState),
    List.Pairwise (fun a b => a.block_number ≤ b.block_number) queue →
    handle_block_deposits block_number queue channel_state
      = { (queue.filter
            (fun o => is_transaction_confirmed o.block_number block_number)).foldl
            (fun s o => apply_channel_newbalance s o.transaction) channel_state with
          deposit_transaction_queue :=
            queue.filter
              (fun o => ! is_transaction_confirmed o.block_number block_number) } := by
  intro queue
  induction queue with
  | nil => intro channel_state _; rfl
  | cons order rest ih =>
      intro channel_state hsorted
      by_cases hconf : is_transaction_confirmed order.block_number block_number
      · rw [handle_block_deposits, if_pos hconf,
          ih (apply_channel_newbalance channel_state order.transaction)
            (List.Pairwise.sublist (List.sublist_cons_self order rest) hsorted)]
        simp [List.filter_cons, hconf]
      · have hall : ∀ r ∈ order :: rest,
            is_transaction_confirmed r.block_number block_number = false := by
          intro r hr
          rcases List.mem_cons.mp hr with hr | hr
          · subst hr
            exact Bool.eq_false_iff.mpr hconf
          · have hle : order.block_number ≤ r.block_number :=
              (List.pairwise_cons.mp hsorted).1 r hr
            have hnot : ¬ is_transaction_confirmed r.block_number block_number := by
              intro habs
              apply hconf
              unfold is_transaction_confirmed at habs ⊢
              simp only [decide_eq_true_eq] at habs ⊢
              omega
            exact Bool.eq_false_iff.mpr hnot
        have hfilter_none :
            (order :: rest).filter
              (fun o => is_transaction_confirmed o.block_number block_number) = [] := by
          rw [List.filter_eq_nil_iff]
          intro a ha
          rw [hall a ha]
          simp
        have hfilter_all :
            (order :: rest).filter
              (fun o => ! is_transaction_confirmed o.block_number block_number)
              = order :: rest := by
          rw [List.filter_eq_self]
          intro a ha
          rw [hall a ha]
          rfl
        rw [handle_block_deposits, if_neg hconf, hfilter_none, hfilter_all]
        rfl

/-- C6 (amended): on every `Block` state change at current block `B`,
`handle_block` pops and applies, in queue order, exactly those entries of a
(block-number sorted) deposit queue whose deposit block number plus
`DEFAULT_CONFIRMATIONS` is strictly less than `B`; in particular an entry
with deposit block number + `DEFAULT_CONFIRMATIONS` equal to `B` stays in
the queue on that `Block` change. -/
theorem c6_handle_block_confirmed_deposits (channel_state : NettingChannelState)
    (state_change : Block) (block_number : Nat)
    (hsorted : List.Pairwise (fun a b => a.block_number ≤ b.block_number)
      channel_state.deposit_transaction_queue) :
    ∃ channel_state2,
      (handle_block channel_state state_change block_number).new_state
          = some channel_state2
      ∧ channel_state2.deposit_transaction_queue
          = channel_state.deposit_transaction_queue.filter
              (fun o => ! is_transaction_confirmed o.block_number block_number)
      ∧ channel_state2.our_state
          = ((channel_state.deposit_transaction_queue.filter
                (fun o => is_transaction_confirmed o.block_number block_number)).foldl
              (fun s o => apply_channel_newbalance s o.transaction)
              channel_state).our_state
      ∧ channel_state2.partner_state
          = ((channel_state.deposit_transaction_queue.filter
                (fun o => is_transaction_confirmed o.block_number block_number)).foldl
              (fun s o => apply_channel_newbalance s o.transaction)
              channel_state).partner_state
      ∧ (∀ o ∈ channel_state.deposit_transaction_queue,
          o.block_number + DEFAULT_NUMBER_OF_BLOCK_CONFIRMATIONS = block_number →
          o ∈ channel_state2.deposit_transaction_queue) := by
  have hframe := handle_block_closed_branch_frame channel_state state_change
  refine ⟨_, rfl, ?_, ?_, ?_, ?_⟩
  · rw [hframe.2.2, handle_block_deposits_spec block_number _ _
      (hframe.2.2 ▸ hsorted)]
  · rw [hframe.2.2, handle_block_deposits_spec block_number _ _
      (hframe.2.2 ▸ hsorted)]
    exact (foldl_newbalance_agree _ _ channel_state hframe.1 hframe.2.1).1
  · rw [hframe.2.2, handle_block_deposits_spec block_number _ _
      (hframe.2.2 ▸ hsorted)]
    exact (foldl_newbalance_agree _ _ channel_state hframe.1 hframe.2.1).2
  · intro o ho hboundary
    rw [hframe.2.2, handle_block_deposits_spec block_number _ _
      (hframe.2.2 ▸ hsorted)]
    dsimp only
    rw [List.mem_filter]
    refine ⟨ho, ?_⟩
    have : ¬ is_transaction_confirmed o.block_number block_number := by
      unfold is_transaction_confirmed
      simp only [decide_eq_true_eq]
      omega
    rw [Bool.eq_false_iff.mpr this]
    rfl

/-- C6 witness: the amended theorem applied to the fixture channel with its
single-entry queue at block 10 (the entry, mined at block 0, is then
strictly confirmed). -/
theorem c6_witness :
    List.Pairwise
      (fun a b => TransactionOrder.block_number a ≤ TransactionOrder.block_number b)
      chanQueueTest.deposit_transaction_queue
    ∧ ∃ channel_state2,
      (handle_block chanQueueTest ⟨10, 99⟩ 10).new_state = some channel_state2
      ∧ channel_state2.deposit_transaction_queue
          = chanQueueTest.deposit_transaction_queue.filter
              (fun o => ! is_transaction_confirmed o.block_number 10)
      ∧ channel_state2.our_state
          = ((chanQueueTest.deposit_transaction_queue.filter
                (fun o => is_transaction_confirmed o.block_number 10)).foldl
              (fun s o => apply_channel_newbalance s o.transaction)
              chanQueueTest).our_state
      ∧ channel_state2.partner_state
          = ((chanQueueTest.deposit_transaction_queue.filter
                (fun o => is_transaction_confirmed o.block_number 10)).foldl
              (fun s o => apply_channel_newbalance s o.transaction)
              chanQueueTest).partner_state
      ∧ (∀ o ∈ chanQueueTest.deposit_transaction_queue,
          o.block_number + DEFAULT_NUMBER_OF_BLOCK_CONFIRMATIONS = 10 →
          o ∈ channel_state2.deposit_transaction_queue) :=
  ⟨by decide, c6_handle_block_confirmed_deposits chanQueueTest ⟨10, 99⟩ 10 (by decide)⟩

/-! ### C4: locked-transfer validation -/

/-- C4: given a balance proof that is usable on-chain,
`valid_lockedtransfer_check` accepts and returns the candidate tree
`with(sender.merkletree, lock.lockhash)` if and only if the lockhash is not
already a leaf (the candidate exists), the candidate width respects
`MAXIMUM_PENDING_TRANSFERS`, the received locksroot is the candidate root,
the received `transferred_amount` is unchanged, the received
`locked_amount` grew by exactly the lock amount, and the lock amount is at
most the distributable amount. -/
theorem c4_valid_lockedtransfer_check_iff (E : CryptoEnv)
    (channel_state : NettingChannelState)
    (sender_state receiver_state : NettingChannelEndState)
    (received : BalanceProof) (lock : HashTimeLockState)
    (husable :
      (is_balance_proof_usable_onchain E received channel_state sender_state).1
        = true) :
    valid_lockedtransfer_check E channel_state sender_state receiver_state
        received lock
      = (true, none, compute_merkletree_with sender_state.merkletree lock.lockhash)
    ↔ ∃ candidate,
        compute_merkletree_with sender_state.merkletree lock.lockhash
            = some candidate
        ∧ _merkletree_width candidate ≤ MAXIMUM_PENDING_TRANSFERS
        ∧ received.locksroot = merkleroot E candidate
        ∧ received.transferred_amount
            = (get_current_balanceproof sender_state).2.2.1
        ∧ received.locked_amount
            = (get_current_balanceproof sender_state).2.2.2 + lock.amount
        ∧ lock.amount ≤ get_distributable sender_state receiver_state := by
  unfold valid_lockedtransfer_check
  dsimp only
  have husable2 :
      ¬ ((is_balance_proof_usable_onchain E received channel_state
            sender_state).1 = false) := by
    rw [husable]
    simp
  rw [if_neg husable2]
  cases hmt : compute_merkletree_with sender_state.merkletree lock.lockhash with
  | none => simp
  | some candidate =>
      simp only []
      split_ifs with h1 h2 h3 h4 h5
      · simp only [Prod.mk.injEq]
        constructor
        · intro habs
          exact absurd habs.1 (by simp)
        · rintro ⟨c, hc, hw, -⟩
          injection hc with hc
          subst hc
          omega
      · simp only [Prod.mk.injEq]
        constructor
        · intro habs
          exact absurd habs.1 (by simp)
        · rintro ⟨c, hc, -, hroot, -⟩
          injection hc with hc
          subst hc
          exact absurd hroot h2
      · simp only [Prod.mk.injEq]
        constructor
        · intro habs
          exact absurd habs.1 (by simp)
        · rintro ⟨c, hc, -, -, htransferred, -⟩
          exact absurd htransferred h3
      · simp only [Prod.mk.injEq]
        constructor
        · intro habs
          exact absurd habs.1 (by simp)
        · rintro ⟨c, hc, -, -, -, hlocked, -⟩
          exact absurd hlocked h4
      · simp only [Prod.mk.injEq]
        constructor
        · intro habs
          exact absurd habs.1 (by simp)
        · rintro ⟨c, hc, -, -, -, -, hamount⟩
          omega
      · constructor
        · intro _
          exact ⟨candidate, rfl, by omega, not_not.mp h2, not_not.mp h3,
            not_not.mp h4, by omega⟩
        · intro _
          rfl

/-- Fixture incoming lock for the locked-transfer witness. -/
def lockIncomingTest : HashTimeLockState where
  amount := 5
  expiration := 95
  secrethash := 6
  lockhash := 43

/-- Fixture received balance proof for the locked-transfer witness: nonce 2
follows the fixture partner's nonce 1, the locksroot is the fixture root of
`[42, 43]` under `EnvTest.hash_pair` (42 + 43 + 1 = 86), the locked amount
grew by the lock amount (10 + 5). -/
def receivedLockedTransferTest : BalanceProof where
  nonce := 2
  transferred_amount := 0
  locked_amount := 15
  locksroot := 86
  chain_id := 1
  token_network_address := 2
  channel_identifier := 3
  message_hash := 0
  signature := 0
  sender := 7

set_option maxRecDepth 8192 in
/-- C4 witness: the fixture transfer satisfies the usable-on-chain
hypothesis and the equivalence, instantiated at the fixtures. -/
theorem c4_witness :
    (is_balance_proof_usable_onchain EnvTest receivedLockedTransferTest
        chanTest endTestPartner).1 = true
    ∧ (valid_lockedtransfer_check EnvTest chanTest endTestPartner endTestOurs
          receivedLockedTransferTest lockIncomingTest
        = (true, none,
            compute_merkletree_with endTestPartner.merkletree
              lockIncomingTest.lockhash)
      ↔ ∃ candidate,
          compute_merkletree_with endTestPartner.merkletree
              lockIncomingTest.lockhash = some candidate
          ∧ _merkletree_width candidate ≤ MAXIMUM_PENDING_TRANSFERS
          ∧ receivedLockedTransferTest.locksroot = merkleroot EnvTest candidate
          ∧ receivedLockedTransferTest.transferred_amount
              = (get_current_balanceproof endTestPartner).2.2.1
          ∧ receivedLockedTransferTest.locked_amount
              = (get_current_balanceproof endTestPartner).2.2.2
                  + lockIncomingTest.amount
          ∧ lockIncomingTest.amount
              ≤ get_distributable endTestPartner endTestOurs) :=
  ⟨by decide,
   c4_valid_lockedtransfer_check_iff EnvTest chanTest endTestPartner endTestOurs
     receivedLockedTransferTest lockIncomingTest (by decide)⟩

/-! ### C3: strict-sequential nonces and replay rejection -/

/-- Lemma: `is_valid_unlock` either succeeds in the shape
`(true, none, some tree)` or fails. -/
theorem is_valid_unlock_shape (E : CryptoEnv) (unlock : ReceiveUnlock)
    (channel_state : NettingChannelState)
    (sender_state : NettingChannelEndState) :
    (∃ tree, is_valid_unlock E unlock channel_state sender_state
        = (true, none, some tree))
    ∨ (is_valid_unlock E unlock channel_state sender_state).1 = false := by
  unfold is_valid_unlock
  dsimp only
  split
  · right; rfl
  · split
    · right; rfl
    · split_ifs
      · right; rfl
      · right; rfl
      · right; rfl
      · right; rfl
      · left; exact ⟨_, rfl⟩

/-- Lemma: the validity flag returned by `handle_unlock` is the one of
`is_valid_unlock`. -/
theorem handle_unlock_fst (E : CryptoEnv) (channel_state : NettingChannelState)
    (unlock : ReceiveUnlock) :
    (handle_unlock E channel_state unlock).1.1
      = (is_valid_unlock E unlock channel_state channel_state.partner_state).1 := by
  rcases hvu : is_valid_unlock E unlock channel_state channel_state.partner_state
    with ⟨b, m, t⟩
  unfold handle_unlock
  rw [hvu]
  rcases b with _ | _ <;> rcases t with _ | tree <;> rfl

/-- Lemma: after `_del_lock`, no lock is found for the secrethash. -/
theorem get_lock_after_del_lock (end_state : NettingChannelEndState)
    (secrethash : Nat) :
    get_lock (_del_lock end_state secrethash) secrethash = none := by
  unfold get_lock _del_lock _del_unclaimed_lock
  dsimp only
  rw [AssocMap.find?_erase, AssocMap.find?_erase, AssocMap.find?_erase]

/-- C3: a received balance proof whose nonce differs from the sender
end-state's next nonce (current nonce + 1, or 1 without a balance proof)
never validates as usable on-chain; and re-delivering an `Unlock` that was
already processed leaves the channel state exactly as it was and yields
exactly one `EventInvalidReceivedUnlock` diagnostic. -/
theorem c3_nonce_strict_and_replay_rejected :
    (∀ (E : CryptoEnv) (received : BalanceProof)
      (channel_state : NettingChannelState)
      (sender_state : NettingChannelEndState),
      received.nonce
          ≠ (match sender_state.balance_proof with
             | some balance_proof => balance_proof.nonce + 1
             | none => 1) →
      (is_balance_proof_usable_onchain E received channel_state sender_state).1
          = false)
    ∧ (∀ (E : CryptoEnv) (channel_state : NettingChannelState)
      (unlock : ReceiveUnlock),
      (handle_unlock E channel_state unlock).1.1 = true →
      handle_unlock E (handle_unlock E channel_state unlock).2 unlock
        = ((false,
            [Event.eventInvalidReceivedUnlock unlock.secrethash
              (some ErrorReason.noCorrespondingLock)],
            some ErrorReason.noCorrespondingLock),
           (handle_unlock E channel_state unlock).2)) := by
  constructor
  · intro E received channel_state sender_state hnonce
    have hnext : received.nonce ≠ get_next_nonce sender_state := by
      intro habs
      apply hnonce
      rw [habs]
      cases hbp : sender_state.balance_proof <;> simp [get_next_nonce, hbp]
    unfold is_balance_proof_usable_onchain
    dsimp only
    split_ifs with h1 h2 h3 h4 h5 h6 h7
    all_goals first
      | rfl
      | exact absurd hnext h6
  · intro E channel_state unlock hfirst
    have hshape :
        ∃ tree, is_valid_unlock E unlock channel_state channel_state.partner_state
          = (true, none, some tree) := by
      rcases is_valid_unlock_shape E unlock channel_state
          channel_state.partner_state with hsucc | hfail
      · exact hsucc
      · rw [handle_unlock_fst, hfail] at hfirst
        cases hfirst
    rcases hshape with ⟨tree, hvu⟩
    have hresult :
        handle_unlock E channel_state unlock
          = ((true,
              [Event.sendProcessed unlock.balance_proof.sender
                unlock.message_identifier], none),
             { channel_state with
               partner_state :=
                 _del_lock
                   { channel_state.partner_state with
                     balance_proof := some unlock.balance_proof
                     merkletree := tree }
                   unlock.secrethash }) := by
      unfold handle_unlock
      rw [hvu]
    rw [hresult]
    dsimp only
    have hsecond :
        is_valid_unlock E unlock
          { channel_state with
            partner_state :=
              _del_lock
                { channel_state.partner_state with
                  balance_proof := some unlock.balance_proof
                  merkletree := tree }
                unlock.secrethash }
          (_del_lock
            { channel_state.partner_state with
              balance_proof := some unlock.balance_proof
              merkletree := tree }
            unlock.secrethash)
          = (false, some ErrorReason.noCorrespondingLock, none) := by
      unfold is_valid_unlock
      rw [get_lock_after_del_lock]
    unfold handle_unlock
    rw [hsecond]

/-- Fixture received unlock for the C3 witness: nonce 2 follows the fixture
partner's nonce 1, the lock (amount 10) is removed, `transferred_amount`
grows to 10, `locked_amount` drops to 0, the locksroot is the empty root. -/
def unlockTest : ReceiveUnlock where
  message_identifier := 31
  secret := 77
  secrethash := 5
  balance_proof :=
    { nonce := 2
      transferred_amount := 10
      locked_amount := 0
      locksroot := 0
      chain_id := 1
      token_network_address := 2
      channel_identifier := 3
      message_hash := 0
      signature := 0
      sender := 7 }

/-- Fixture balance proof with a skipped nonce (5 instead of the expected
2) for the C3 witness. -/
def bpBadNonceTest : BalanceProof where
  nonce := 5
  transferred_amount := 10
  locked_amount := 0
  locksroot := 0
  chain_id := 1
  token_network_address := 2
  channel_identifier := 3
  message_hash := 0
  signature := 0
  sender := 7

set_option maxRecDepth 8192 in
/-- C3 witness: the nonce-skip fixture is rejected, the fixture unlock is
processed successfully, and re-delivering it changes nothing and produces
exactly one `EventInvalidReceivedUnlock`. -/
theorem c3_witness :
    (is_balance_proof_usable_onchain EnvTest bpBadNonceTest chanTest
        endTestPartner).1 = false
    ∧ (handle_unlock EnvTest chanTest unlockTest).1.1 = true
    ∧ handle_unlock EnvTest (handle_unlock EnvTest chanTest unlockTest).2
          unlockTest
        = ((false,
            [Event.eventInvalidReceivedUnlock unlockTest.secrethash
              (some ErrorReason.noCorrespondingLock)],
            some ErrorReason.noCorrespondingLock),
           (handle_unlock EnvTest chanTest unlockTest).2) :=
  ⟨c3_nonce_strict_and_replay_rejected.1 EnvTest bpBadNonceTest chanTest
      endTestPartner (by decide),
   by decide,
   c3_nonce_strict_and_replay_rejected.2 EnvTest chanTest unlockTest (by decide)⟩

end Raiden
